import Mathlib

/-!
Shallow embedding of the deterministic validation-and-scoring engine of the
Visa-Genius-X backend (`server.mjs`): document validation (`analyzeDocument`),
score aggregation (`computeScore`), risk bars (`fundsRisk`, `docsRisk`),
country comparison, twin summary, and the `/api/analyze` pipeline.

Modelling conventions:
* JavaScript strings are Lean `String`s; uploaded-file metadata is `FileDesc`.
* `parseInt(s, 10)` is modelled by `parseIntJS : String → Option Int`, where
  `none` models `NaN` (every `NaN` comparison is false, which the callers
  reproduce by case analysis on the `Option`).
* `file.size / 1024 < 30` is a floating-point comparison on a non-negative
  integer `size`; it is equivalent to `size < 30 * 1024`, which is how it is
  embedded.
* Missing profile fields (`undefined` in JS) are `none`; the JS falsiness of
  the empty string in `profile.funds || '0'` and `profile.name || 'Applicant'`
  is modelled explicitly.
-/

namespace VisaGenius

/-- Characters trimmed by JS `parseInt` before parsing: the ECMA-262
WhiteSpace productions (TAB, VT, FF, SP, NBSP, ZWNBSP and the Unicode
space separators) and the LineTerminator productions (LF, CR, LS, PS). -/
def isJsSpace (c : Char) : Bool :=
  c = ' ' || c = '\t' || c = '\n' || c = '\r' ||
  c = '\u000B' || c = '\u000C' ||
  c = '\u00A0' || c = '\uFEFF' || c = '\u1680' ||
  ('\u2000' ≤ c && c ≤ '\u200A') ||
  c = '\u2028' || c = '\u2029' || c = '\u202F' || c = '\u205F' || c = '\u3000'

/-- Accumulate a decimal digit list into a natural number. -/
def digitsToNat : List Char → Nat → Nat
  | [], acc => acc
  | c :: cs, acc => digitsToNat cs (acc * 10 + (c.toNat - '0'.toNat))

/-- JS `parseInt(s, 10)`: skip leading whitespace, read an optional sign, then
the longest prefix of decimal digits; if there are no digits the result is
`NaN`, modelled as `none`. -/
def parseIntJS (s : String) : Option Int :=
  let cs := s.toList.dropWhile isJsSpace
  let signAndRest : Bool × List Char :=
    match cs with
    | '-' :: rest => (true, rest)
    | '+' :: rest => (false, rest)
    | _ => (false, cs)
  let ds := signAndRest.2.takeWhile Char.isDigit
  if ds.isEmpty then none
  else
    let n : Nat := digitsToNat ds 0
    some (if signAndRest.1 then -(n : Int) else (n : Int))

/-- The part of a path after its last `/` (node `path.basename`, restricted to
the shapes produced by uploaded file names). -/
def afterLastSlash (s : String) : List Char :=
  ((s.toList.reverse.takeWhile (fun c => c ≠ '/')).reverse)

/-- Node `path.extname`: the suffix of the basename starting at its last dot,
empty when there is no dot or the only dot starts the basename. -/
def extname (s : String) : String :=
  let bs := afterLastSlash s
  if bs.contains '.' then
    let tl := (bs.reverse.takeWhile (fun c => c ≠ '.')).reverse
    if bs.length - tl.length - 1 = 0 then ""
    else String.mk ('.' :: tl)
  else ""

/-- Metadata of one uploaded file as seen by `analyzeDocument`:
`originalname` and `size` in bytes. -/
structure FileDesc where
  originalname : String
  size : Nat
deriving Repr, DecidableEq

/-- Output of `analyzeDocument`. -/
structure DocAssessment where
  ok : Bool
  note : String
  scoreImpact : Int
deriving Repr, DecidableEq

/-- The allowed extension list of `analyzeDocument`. -/
def allowedExt : List String := [".pdf", ".jpg", ".jpeg", ".png"]

/-- JS `toLowerCase` restricted to ASCII, which is all the extension
comparison needs (`Char.toLower` shifts only the letters A–Z, exactly as JS
does on that range). -/
def lowerStr (s : String) : String :=
  String.mk (s.toList.map Char.toLower)

/-- The lower-cased extension `analyzeDocument` derives from a file. -/
def extOf (file : FileDesc) : String :=
  lowerStr (extname file.originalname)

/-- `analyzeDocument(file, type)` from `server.mjs`: extension check, then
size check, then per-role acceptance. -/
def analyzeDocument (file : FileDesc) (type : String) : DocAssessment :=
  let ext := extOf file
  if ¬ (allowedExt.contains ext) then
    { ok := false
      note := "Unsupported file type (" ++ ext ++ "). Please upload PDF or image."
      scoreImpact := -20 }
  else if file.size < 30 * 1024 then
    { ok := false
      note := "File looks too small, may be corrupted or incomplete."
      scoreImpact := -15 }
  else if type = "passport" then
    { ok := true
      note := "Passport file looks valid (size & type OK)."
      scoreImpact := 15 }
  else if type = "bank" then
    { ok := true
      note := "Bank statement file looks valid. For demo we assume balance & history OK."
      scoreImpact := 20 }
  else if type = "offer" then
    { ok := true
      note := "Offer letter file looks valid. In production we would verify institution & dates."
      scoreImpact := 15 }
  else
    { ok := true
      note := "Document uploaded successfully."
      scoreImpact := 5 }

/-- The applicant profile parsed from the request body; absent JSON keys are
`none`. -/
structure Profile where
  name : Option String := none
  funds : Option String := none
  education : Option String := none
  past_visa : Option String := none
  purpose : Option String := none
  dest_country : Option String := none
deriving Repr, DecidableEq

/-- `profile.funds || '0'`: a missing or empty (JS-falsy) funds field falls
back to the string `"0"`. -/
def fundsRaw (p : Profile) : String :=
  match p.funds with
  | none => "0"
  | some s => if s = "" then "0" else s

/-- The funds value `computeScore` works with; `none` models `NaN`. -/
def fundsParsed (p : Profile) : Option Int :=
  parseIntJS (fundsRaw p)

/-- The funds adjustment of `computeScore`: `+10` above `150000`, `-10` below
`50000`, otherwise `0`; both `NaN` comparisons are false, so `NaN` gets `0`. -/
def fundsAdj : Option Int → Int
  | some f => if f > 150000 then 10 else if f < 50000 then -10 else 0
  | none => 0

/-- The funds reason of `computeScore`; `NaN` falls through to the final
`else` branch. -/
def fundsReason : Option Int → String
  | some f =>
      if f > 150000 then "Strong financial capacity"
      else if f < 50000 then "Low declared funds – risk on finances"
      else "Funds appear moderate for stay"
  | none => "Funds appear moderate for stay"

/-- A document entry of the internal `docs` array: display name plus the
fields of the assessment. -/
structure NamedDoc where
  name : String
  ok : Bool
  note : String
  scoreImpact : Int
deriving Repr, DecidableEq

/-- Result record of `computeScore`. -/
structure ScoreInfo where
  score : Int
  plain : String
  reasons : List String
deriving Repr, DecidableEq

/-- `Math.max(0, Math.min(100, base))`. -/
def clampScore (x : Int) : Int := max 0 (min 100 x)

/-- The band mapping of `computeScore`, evaluated highest-first. -/
def plainOf (s : Int) : String :=
  if s ≥ 75 then "Highly likely"
  else if s ≥ 60 then "Likely"
  else if s ≥ 45 then "Borderline"
  else "Unlikely"

/-- `computeScore(profile, docResults)` from `server.mjs`. -/
def computeScore (profile : Profile) (docResults : List NamedDoc) : ScoreInfo :=
  let docSum : Int := (docResults.map (fun d => d.scoreImpact)).sum
  let funds := fundsParsed profile
  let eduAdj : Int :=
    if profile.education = some "Masters" ∨ profile.education = some "PhD" then 5 else 0
  let visaPlus : Int := if profile.past_visa = some "3+" then 5 else 0
  let visaMinus : Int := if profile.past_visa = some "None" then -5 else 0
  let base := clampScore (50 + docSum + fundsAdj funds + eduAdj + visaPlus + visaMinus)
  let reasons : List String :=
    [fundsReason funds]
    ++ (if profile.education = some "Masters" ∨ profile.education = some "PhD" then
          ["Advanced education supports purpose"] else [])
    ++ (if profile.past_visa = some "3+" then
          ["Good travel history – positive signal"] else [])
    ++ (if profile.past_visa = some "None" then
          ["No prior visa history – neutral or slightly risky"] else [])
    ++ (if docResults.any (fun d => !d.ok) then
          ["One or more documents look weak or invalid"] else [])
  { score := base, plain := plainOf base, reasons := reasons }

/-- `fundsRisk(score)` from `server.mjs`. -/
def fundsRisk (score : Int) : Int :=
  if score ≥ 80 then 20
  else if score ≥ 60 then 35
  else 60

/-- `docsRisk(docs)` from `server.mjs`. -/
def docsRisk (docs : List NamedDoc) : Int :=
  let bad := (docs.filter (fun d => !d.ok)).length
  if bad = 0 then 25
  else if bad = 1 then 50
  else 70

/-- One row of the multi-country comparison. -/
structure CountryRow where
  name : String
  score : Int
  flag : String
  reason : String
deriving Repr, DecidableEq

/-- One row of the risk breakdown. -/
structure RiskRow where
  label : String
  value : Int
deriving Repr, DecidableEq

/-- The digital-twin summary. -/
structure Twin where
  name : String
  confidence : Int
  traits : List String
deriving Repr, DecidableEq

/-- A document entry as exposed in the response: `scoreImpact` is absent. -/
structure DocView where
  name : String
  ok : Bool
  note : String
deriving Repr, DecidableEq

/-- The JSON body of a successful `/api/analyze` response. -/
structure AnalysisResult where
  score : Int
  plain : String
  reasons : List String
  docs : List DocView
  twin : Twin
  countries : List CountryRow
  risk : List RiskRow
deriving Repr, DecidableEq

/-- The `countries` array built from the aggregate score. -/
def countriesOf (base : Int) : List CountryRow :=
  [ { name := "Canada", score := min 100 (base + 3), flag := "🇨🇦"
      reason := "Study funds okay; program alignment good." },
    { name := "UK", score := max 0 (base - 8), flag := "🇬🇧"
      reason := "Needs stronger financial and document history." },
    { name := "Australia", score := min 100 (base + 5), flag := "🇦🇺"
      reason := "Profile matches skill/education demand." } ]

/-- The `risk` array built from the final score, the document verdicts and the
profile. -/
def riskOf (profile : Profile) (score : Int) (docs : List NamedDoc) : List RiskRow :=
  [ { label := "Finances", value := fundsRisk score },
    { label := "Docs", value := docsRisk docs },
    { label := "Travel History"
      value := if profile.past_visa = some "None" then 60 else 25 },
    { label := "Purpose"
      value := if profile.purpose = some "Study" ∨ profile.purpose = some "Work" then 20 else 40 } ]

/-- The `twin` record: fallback name, fixed confidence, two branch-selected
traits. -/
def twinOf (profile : Profile) (score : Int) : Twin :=
  { name :=
      match profile.name with
      | none => "Applicant"
      | some s => if s = "" then "Applicant" else s
    confidence := 80
    traits :=
      [ if profile.past_visa = some "None" then "Low travel history" else "Experienced traveller",
        if score ≥ 70 then "Low risk profile" else "Medium risk profile" ] }

/-- The internal `docs` array of the handler: the three required documents
analyzed in order with their display names. -/
def buildDocs (passport bank offer : FileDesc) : List NamedDoc :=
  let p := analyzeDocument passport "passport"
  let b := analyzeDocument bank "bank"
  let o := analyzeDocument offer "offer"
  [ { name := "Passport", ok := p.ok, note := p.note, scoreImpact := p.scoreImpact },
    { name := "Bank statement", ok := b.ok, note := b.note, scoreImpact := b.scoreImpact },
    { name := "Offer letter", ok := o.ok, note := o.note, scoreImpact := o.scoreImpact } ]

/-- `docs.map(({ scoreImpact, ...rest }) => rest)`: drop `scoreImpact`, keep
`name`, `ok`, `note`. -/
def stripImpact (d : NamedDoc) : DocView :=
  { name := d.name, ok := d.ok, note := d.note }

/-- The `/api/analyze` handler after upload decoding: reject when any of the
three required documents is absent, otherwise validate, score and assemble the
response. -/
def analyzeRequest (profile : Profile) (passport bank offer : Option FileDesc) :
    Except String AnalysisResult :=
  match passport, bank, offer with
  | some pf, some bf, some off =>
      let docs := buildDocs pf bf off
      let scoreInfo := computeScore profile docs
      Except.ok
        { score := scoreInfo.score
          plain := scoreInfo.plain
          reasons := scoreInfo.reasons
          docs := docs.map stripImpact
          twin := twinOf profile scoreInfo.score
          countries := countriesOf scoreInfo.score
          risk := riskOf profile scoreInfo.score docs }
  | _, _, _ =>
      Except.error "Missing required documents. Please upload passport, bank statement, and offer letter."

/-! Sample inputs used to instantiate theorems with hypotheses. -/

/-- A valid sample passport upload: allowed extension, 40000 bytes. -/
def samplePassport : FileDesc := ⟨"a.pdf", 40000⟩

/-- A valid sample bank-statement upload. -/
def sampleBank : FileDesc := ⟨"b.pdf", 40000⟩

/-- A valid sample offer-letter upload. -/
def sampleOffer : FileDesc := ⟨"c.pdf", 40000⟩

/-- The response the handler produces for the empty profile and the three
sample uploads. -/
def sampleResult : AnalysisResult :=
  { score := 90
    plain := "Highly likely"
    reasons := ["Low declared funds – risk on finances"]
    docs :=
      [ { name := "Passport", ok := true
          note := "Passport file looks valid (size & type OK)." },
        { name := "Bank statement", ok := true
          note := "Bank statement file looks valid. For demo we assume balance & history OK." },
        { name := "Offer letter", ok := true
          note := "Offer letter file looks valid. In production we would verify institution & dates." } ]
    twin := { name := "Applicant", confidence := 80
              traits := ["Experienced traveller", "Low risk profile"] }
    countries :=
      [ { name := "Canada", score := 93, flag := "🇨🇦"
          reason := "Study funds okay; program alignment good." },
        { name := "UK", score := 82, flag := "🇬🇧"
          reason := "Needs stronger financial and document history." },
        { name := "Australia", score := 95, flag := "🇦🇺"
          reason := "Profile matches skill/education demand." } ]
    risk :=
      [ { label := "Finances", value := 20 },
        { label := "Docs", value := 25 },
        { label := "Travel History", value := 25 },
        { label := "Purpose", value := 40 } ] }

/-! Helper lemmas. -/

/-- The clamp is bounded below by 0. -/
lemma clampScore_nonneg (x : Int) : 0 ≤ clampScore x := le_max_left 0 _

/-- The clamp is bounded above by 100. -/
lemma clampScore_le_hundred (x : Int) : clampScore x ≤ 100 := by
  unfold clampScore
  exact max_le (by norm_num) (min_le_left _ _)

/-- Stripping `scoreImpact` does not change which entries count as failed. -/
lemma length_filter_strip (docs : List NamedDoc) :
    ((docs.map stripImpact).filter (fun d => !d.ok)).length =
      (docs.filter (fun d => !d.ok)).length := by
  induction docs with
  | nil => rfl
  | cons d ds ih => by_cases hd : d.ok <;> simp [stripImpact, List.filter_cons, hd, ih]

/-! Theorems for the claims. -/

/-- C2: for every profile (including arbitrarily large or negative numeric
funds strings) and every document-assessment list, the score returned by
`computeScore` lies in [0, 100]. -/
theorem C2_score_within_bounds (p : Profile) (docResults : List NamedDoc) :
    0 ≤ (computeScore p docResults).score ∧ (computeScore p docResults).score ≤ 100 := by
  unfold computeScore
  exact ⟨clampScore_nonneg _, clampScore_le_hundred _⟩

/-- C3: on the clamped range [0, 100] the band mapping is exhaustive and
evaluated highest-first: "Highly likely" iff score ≥ 75, "Likely" iff
60 ≤ score < 75, "Borderline" iff 45 ≤ score < 60, "Unlikely" iff
score < 45, so each boundary value lands in the higher band. -/
theorem C3_band_mapping (s : Int) (h0 : 0 ≤ s) (h1 : s ≤ 100) :
    (plainOf s = "Highly likely" ↔ 75 ≤ s) ∧
    (plainOf s = "Likely" ↔ 60 ≤ s ∧ s < 75) ∧
    (plainOf s = "Borderline" ↔ 45 ≤ s ∧ s < 60) ∧
    (plainOf s = "Unlikely" ↔ s < 45) := by
  unfold plainOf
  split_ifs with hA hB hC <;> refine ⟨?_, ?_, ?_, ?_⟩ <;> simp_all <;> omega

/-- Witness for C3 at the boundary score 75. -/
theorem C3_band_mapping_boundary_witness :
    (plainOf 75 = "Highly likely" ↔ 75 ≤ (75 : Int)) ∧
    (plainOf 75 = "Likely" ↔ 60 ≤ (75 : Int) ∧ (75 : Int) < 75) ∧
    (plainOf 75 = "Borderline" ↔ 45 ≤ (75 : Int) ∧ (75 : Int) < 60) ∧
    (plainOf 75 = "Unlikely" ↔ (75 : Int) < 45) :=
  C3_band_mapping 75 (by norm_num) (by norm_num)

/-- C9: `analyzeDocument` depends on `originalname` only through the
lower-cased extension, so it treats names with upper-cased extensions
exactly like their lower-cased variants. -/
theorem C9_extension_case_insensitive (n₁ n₂ : String) (sz : Nat) (role : String)
    (h : lowerStr (extname n₁) = lowerStr (extname n₂)) :
    analyzeDocument ⟨n₁, sz⟩ role = analyzeDocument ⟨n₂, sz⟩ role := by
  simp only [analyzeDocument, extOf, h]

/-- Witness for C9: "ID.PDF" is accepted equivalently to "id.pdf". -/
theorem C9_extension_case_insensitive_witness :
    analyzeDocument ⟨"ID.PDF", 40000⟩ "passport" = analyzeDocument ⟨"id.pdf", 40000⟩ "passport" :=
  C9_extension_case_insensitive "ID.PDF" "id.pdf" 40000 "passport" (by decide)

/-- C10: in every assessment `analyzeDocument` produces, `ok` holds exactly
when `scoreImpact` is positive, and the impact is one of −20, −15, +5,
+15, +20. -/
theorem C10_ok_iff_positive_impact (f : FileDesc) (role : String) :
    ((analyzeDocument f role).ok = true ↔ 0 < (analyzeDocument f role).scoreImpact) ∧
    (analyzeDocument f role).scoreImpact ∈ ([-20, -15, 5, 15, 20] : List Int) := by
  cases hc : allowedExt.contains (extOf f) <;>
    simp only [analyzeDocument, hc] <;> split_ifs <;> simp

/-- C1 counterexample: for the non-numeric funds string "abc", `parseInt`
yields `NaN`, both funds comparisons are false, so the score keeps its base
value 50 (not 40) and the reasons carry "Funds appear moderate for stay"
instead of the low-funds reason — contrary to the claim that non-numeric
funds are treated as 0. -/
theorem C1_nonNumeric_funds_counterexample :
    (computeScore { funds := some "abc" } []).score = 50 ∧
    "Funds appear moderate for stay" ∈ (computeScore { funds := some "abc" } []).reasons ∧
    "Low declared funds – risk on finances" ∉ (computeScore { funds := some "abc" } []).reasons := by
  refine ⟨?_, ?_, ?_⟩ <;> decide

/-- C1 (amended): a missing or empty funds field parses to 0, takes the
−10 adjustment and the low-funds reason; a funds string with no parsable
leading integer parses to `NaN`, takes no funds adjustment and yields the
"Funds appear moderate for stay" reason. -/
theorem C1_funds_default_amended (p : Profile) (docResults : List NamedDoc) :
    ((p.funds = none ∨ p.funds = some "") →
       fundsParsed p = some 0 ∧
       fundsAdj (fundsParsed p) = -10 ∧
       "Low declared funds – risk on finances" ∈ (computeScore p docResults).reasons ∧
       "Funds appear moderate for stay" ∉ (computeScore p docResults).reasons) ∧
    (fundsParsed p = none →
       fundsAdj (fundsParsed p) = 0 ∧
       "Funds appear moderate for stay" ∈ (computeScore p docResults).reasons ∧
       "Low declared funds – risk on finances" ∉ (computeScore p docResults).reasons) := by
  constructor
  · intro h
    have hp : fundsParsed p = some 0 := by
      rcases h with h | h <;> simp [fundsParsed, fundsRaw, h] <;> decide
    have hr : fundsReason (fundsParsed p) = "Low declared funds – risk on finances" := by
      rw [hp]; decide
    refine ⟨hp, by rw [hp]; decide, ?_, ?_⟩
    · simp [computeScore, hr]
    · simp only [computeScore]
      split_ifs <;> simp [hr]
  · intro h
    have hr : fundsReason (fundsParsed p) = "Funds appear moderate for stay" := by
      rw [h]; rfl
    refine ⟨by rw [h]; rfl, ?_, ?_⟩
    · simp [computeScore, hr]
    · simp only [computeScore]
      split_ifs <;> simp [hr]

/-- Witness for the amended C1: a profile with no funds field gets the −10
branch and only the low-funds reason; the profile with funds "abc" gets the
neutral branch and only the moderate reason. -/
theorem C1_funds_default_amended_witness :
    (fundsParsed { funds := none } = some 0 ∧
     fundsAdj (fundsParsed { funds := none }) = -10 ∧
     "Low declared funds – risk on finances" ∈ (computeScore { funds := none } []).reasons ∧
     "Funds appear moderate for stay" ∉ (computeScore { funds := none } []).reasons) ∧
    (fundsAdj (fundsParsed { funds := some "abc" }) = 0 ∧
     "Funds appear moderate for stay" ∈ (computeScore { funds := some "abc" } []).reasons ∧
     "Low declared funds – risk on finances" ∉ (computeScore { funds := some "abc" } []).reasons) :=
  ⟨(C1_funds_default_amended { funds := none } []).1 (Or.inl rfl),
   (C1_funds_default_amended { funds := some "abc" } []).2 (by decide)⟩

/-- C4: `analyzeDocument` applies its rules in order with first match
winning — disallowed extension forces ok=false with impact −20 regardless of
role or size; otherwise a size below 30 KB forces ok=false with impact −15;
otherwise ok=true with impact +15/+20/+15/+5 for passport/bank/offer/other. -/
theorem C4_validator_rule_order (f : FileDesc) (role : String) :
    (extOf f ∉ allowedExt →
       (analyzeDocument f role).ok = false ∧ (analyzeDocument f role).scoreImpact = -20) ∧
    (extOf f ∈ allowedExt → f.size < 30 * 1024 →
       (analyzeDocument f role).ok = false ∧ (analyzeDocument f role).scoreImpact = -15) ∧
    (extOf f ∈ allowedExt → ¬ f.size < 30 * 1024 →
       (analyzeDocument f role).ok = true ∧
       (analyzeDocument f role).scoreImpact =
         if role = "passport" then 15
         else if role = "bank" then 20
         else if role = "offer" then 15
         else 5) := by
  refine ⟨fun h => ?_, fun h hsz => ?_, fun h hsz => ?_⟩
  · simp [analyzeDocument, h]
  · simp [analyzeDocument, h, hsz]
  · simp [analyzeDocument, h, hsz]
    split_ifs <;> simp

/-- Witness for C4, one concrete input per rule branch. -/
theorem C4_validator_rule_order_witness :
    ((analyzeDocument ⟨"a.docx", 50000⟩ "bank").ok = false ∧
     (analyzeDocument ⟨"a.docx", 50000⟩ "bank").scoreImpact = -20) ∧
    ((analyzeDocument ⟨"b.pdf", 1000⟩ "offer").ok = false ∧
     (analyzeDocument ⟨"b.pdf", 1000⟩ "offer").scoreImpact = -15) ∧
    ((analyzeDocument ⟨"c.png", 40000⟩ "bank").ok = true ∧
     (analyzeDocument ⟨"c.png", 40000⟩ "bank").scoreImpact =
       if "bank" = "passport" then 15
       else if "bank" = "bank" then 20
       else if "bank" = "offer" then 15
       else 5) :=
  ⟨(C4_validator_rule_order ⟨"a.docx", 50000⟩ "bank").1 (by decide),
   (C4_validator_rule_order ⟨"b.pdf", 1000⟩ "offer").2.1 (by decide) (by decide),
   (C4_validator_rule_order ⟨"c.png", 40000⟩ "bank").2.2 (by decide) (by decide)⟩

/-- C5: when any of the three required documents is absent the handler
returns the precondition error and no `AnalysisResult` — in particular no
score — is produced. -/
theorem C5_missing_document_precondition (profile : Profile) (p b o : Option FileDesc)
    (h : p = none ∨ b = none ∨ o = none) :
    analyzeRequest profile p b o =
      Except.error "Missing required documents. Please upload passport, bank statement, and offer letter." := by
  cases p <;> cases b <;> cases o <;> simp_all [analyzeRequest]

/-- Witness for C5 with the passport slot left empty. -/
theorem C5_missing_document_precondition_witness :
    analyzeRequest {} none (some sampleBank) (some sampleOffer) =
      Except.error "Missing required documents. Please upload passport, bank statement, and offer letter." :=
  C5_missing_document_precondition {} none (some sampleBank) (some sampleOffer) (Or.inl rfl)

/-- C6: every successful response carries exactly the fixed
Canada/UK/Australia rows with scores min(100, s+3), max(0, s−8),
min(100, s+5) of the aggregate score s and static flags and reasons,
whatever the profile (in particular whatever its `dest_country`). -/
theorem C6_countries_fixed_offsets (profile : Profile) (p b o : Option FileDesc)
    (r : AnalysisResult) (h : analyzeRequest profile p b o = Except.ok r) :
    r.countries =
      [ { name := "Canada", score := min 100 (r.score + 3), flag := "🇨🇦"
          reason := "Study funds okay; program alignment good." },
        { name := "UK", score := max 0 (r.score - 8), flag := "🇬🇧"
          reason := "Needs stronger financial and document history." },
        { name := "Australia", score := min 100 (r.score + 5), flag := "🇦🇺"
          reason := "Profile matches skill/education demand." } ] := by
  cases p <;> cases b <;> cases o <;> simp only [analyzeRequest] at h <;>
    first
    | exact Except.noConfusion h
    | (injection h with h; subst h; rfl)

/-- Witness for C6 on a concrete successful request. -/
theorem C6_countries_fixed_offsets_witness :
    sampleResult.countries =
      [ { name := "Canada", score := min 100 (sampleResult.score + 3), flag := "🇨🇦"
          reason := "Study funds okay; program alignment good." },
        { name := "UK", score := max 0 (sampleResult.score - 8), flag := "🇬🇧"
          reason := "Needs stronger financial and document history." },
        { name := "Australia", score := min 100 (sampleResult.score + 5), flag := "🇦🇺"
          reason := "Profile matches skill/education demand." } ] :=
  C6_countries_fixed_offsets {} (some samplePassport) (some sampleBank) (some sampleOffer)
    sampleResult rfl

/-- C7: every successful response carries exactly the four risk rows
Finances, Docs, Travel History, Purpose in this order, with the values
derived from the final score, the count of failed documents, `past_visa`
and `purpose`. -/
theorem C7_risk_rows (profile : Profile) (p b o : Option FileDesc)
    (r : AnalysisResult) (h : analyzeRequest profile p b o = Except.ok r) :
    r.risk =
      [ { label := "Finances"
          value := if 80 ≤ r.score then 20 else if 60 ≤ r.score then 35 else 60 },
        { label := "Docs"
          value :=
            if (r.docs.filter (fun d => !d.ok)).length = 0 then 25
            else if (r.docs.filter (fun d => !d.ok)).length = 1 then 50
            else 70 },
        { label := "Travel History"
          value := if profile.past_visa = some "None" then 60 else 25 },
        { label := "Purpose"
          value := if profile.purpose = some "Study" ∨ profile.purpose = some "Work" then 20 else 40 } ] := by
  cases p <;> cases b <;> cases o <;> simp only [analyzeRequest] at h <;>
    first
    | exact Except.noConfusion h
    | (injection h with h; subst h; dsimp only;
       simp only [riskOf, fundsRisk, docsRisk, ge_iff_le];
       rw [length_filter_strip])

/-- Witness for C7 on a concrete successful request. -/
theorem C7_risk_rows_witness :
    sampleResult.risk =
      [ { label := "Finances"
          value := if 80 ≤ sampleResult.score then 20 else if 60 ≤ sampleResult.score then 35 else 60 },
        { label := "Docs"
          value :=
            if (sampleResult.docs.filter (fun d => !d.ok)).length = 0 then 25
            else if (sampleResult.docs.filter (fun d => !d.ok)).length = 1 then 50
            else 70 },
        { label := "Travel History"
          value := if Profile.past_visa {} = some "None" then 60 else 25 },
        { label := "Purpose"
          value := if Profile.purpose {} = some "Study" ∨ Profile.purpose {} = some "Work" then 20 else 40 } ] :=
  C7_risk_rows {} (some samplePassport) (some sampleBank) (some sampleOffer) sampleResult rfl

/-- C8: every successful response exposes each document entry with exactly
`name`, `ok`, `note` — `scoreImpact` is stripped from the internal
assessments while the three exposed fields pass through unchanged. -/
theorem C8_docs_strip_scoreImpact (profile : Profile) (pf bf off : FileDesc)
    (r : AnalysisResult)
    (h : analyzeRequest profile (some pf) (some bf) (some off) = Except.ok r) :
    r.docs = (buildDocs pf bf off).map stripImpact ∧
    r.docs.map (fun d => d.name) = (buildDocs pf bf off).map (fun d => d.name) ∧
    r.docs.map (fun d => d.ok) = (buildDocs pf bf off).map (fun d => d.ok) ∧
    r.docs.map (fun d => d.note) = (buildDocs pf bf off).map (fun d => d.note) := by
  simp only [analyzeRequest, Except.ok.injEq] at h
  subst h
  exact ⟨rfl, rfl, rfl, rfl⟩

/-- Witness for C8 on a concrete successful request. -/
theorem C8_docs_strip_scoreImpact_witness :
    sampleResult.docs = (buildDocs samplePassport sampleBank sampleOffer).map stripImpact ∧
    sampleResult.docs.map (fun d => d.name)
      = (buildDocs samplePassport sampleBank sampleOffer).map (fun d => d.name) ∧
    sampleResult.docs.map (fun d => d.ok)
      = (buildDocs samplePassport sampleBank sampleOffer).map (fun d => d.ok) ∧
    sampleResult.docs.map (fun d => d.note)
      = (buildDocs samplePassport sampleBank sampleOffer).map (fun d => d.note) :=
  C8_docs_strip_scoreImpact {} samplePassport sampleBank sampleOffer sampleResult rfl

end VisaGenius
